import Mathlib

/-
  Verification development for the cvsys per-frame pipeline (src/main.py).

  The per-frame loop of main.py is embedded shallowly: the detector output,
  the per-frame filtering (confidence threshold, target-class membership),
  the per-frame class counter, the centroid tracker, the per-object
  eligibility/dispatch loop and the cumulative named counters.  Modules that
  main.py imports but whose source is not part of the repository snapshot
  (centroidtracker, handle_properties, targets_conditions_handler,
  activity_detection, activity_handler, config_file_loader) are modelled from
  the specification and marked as such in their doc comments.

  Numeric conventions: pixel coordinates and counts are ℤ, confidences are ℚ
  (only their ordering is ever used), object ids are ℕ.  A frame is abstract
  (ℕ), standing for the image data that is only ever passed around.
-/

set_option autoImplicit false

namespace CVSys

/-- A video frame.  The core never inspects pixels except through the
abstract detector and activity-signal functions, so frames are opaque
tokens. -/
abbrev Frame := ℕ

/-- The MobileNet SSD class-label list (main.py lines 29-32). -/
def CLASSES : List String :=
  ["background", "aeroplane", "bicycle", "bird", "boat",
   "bottle", "bus", "car", "cat", "chair", "cow", "diningtable",
   "dog", "horse", "motorbike", "person", "pottedplant", "sheep",
   "sofa", "train", "tvmonitor"]

/-- One raw output row of the neural detector for a frame: confidence,
class index and bounding-box corners.  The box is modelled directly by its
integer pixel corners, abstracting the normalised-coordinate scaling and
float-to-int cast of main.py lines 134-135. -/
structure RawDetection where
  confidence : ℚ
  classIdx : ℕ
  x1 : ℤ
  y1 : ℤ
  x2 : ℤ
  y2 : ℤ
  deriving DecidableEq

/-- The class label of a detection, read off the CLASSES table
(main.py line 125).  An out-of-range index is given the empty label, which
belongs to no target. -/
def RawDetection.className (d : RawDetection) : String :=
  CLASSES.getD d.classIdx ""

/-- One entry of the rects list handed to the tracker (main.py lines
144-145): box corners plus the drawing metadata tuple
(p1, p2, label position, colour, class name).  The random colour palette is
abstracted to the class index; the label string is rendering-only and
carries no state. -/
structure Rect where
  x1 : ℤ
  y1 : ℤ
  x2 : ℤ
  y2 : ℤ
  p1 : ℤ × ℤ
  p2 : ℤ × ℤ
  labely : ℤ
  colorIdx : ℕ
  class_name : String
  deriving DecidableEq

/-- Construction of one rect from a passing detection (main.py lines
134-145).  Integer division models the int() truncation of the float
midline arithmetic. -/
def mkRect (d : RawDetection) : Rect :=
  let bboxHeight := d.y2 - d.y1
  { x1 := d.x1, y1 := d.y1, x2 := d.x2, y2 := d.y2,
    p1 := (d.x1, d.y1 + bboxHeight / 2 + 40),
    p2 := (d.x2, d.y2 - bboxHeight / 2 + 40),
    labely := if d.y1 - 15 > 15 then d.y1 - 15 else d.y1 + 15,
    colorIdx := d.classIdx,
    class_name := d.className }

/-- The per-frame class counter (main.py line 109): a dictionary from class
name to the number of detections of that class seen so far in the frame;
an absent key is None. -/
abbrev ClassCounter := String → Option ℤ

/-- The increment class_counter[name] = class_counter.get(name, 0) + 1 of
main.py lines 130-131. -/
def bumpClassCount (cc : ClassCounter) (c : String) : ClassCounter :=
  fun s => if s = c then some ((cc c).getD 0 + 1) else cc s

/-- The detection filter of main.py lines 119-127: keep a detection exactly
when its confidence is strictly above the threshold and its class label is
a declared target. -/
def passes (conf : ℚ) (targets : List String) (d : RawDetection) : Bool :=
  decide (conf < d.confidence) && targets.contains d.className

/-- One iteration of the detection loop of main.py lines 112-145: a passing
detection bumps its class count and appends its rect; any other detection
leaves both untouched. -/
def buildStep (conf : ℚ) (targets : List String)
    (acc : List Rect × ClassCounter) (d : RawDetection) :
    List Rect × ClassCounter :=
  if passes conf targets d then
    (acc.1 ++ [mkRect d], bumpClassCount acc.2 d.className)
  else acc

/-- The whole detection loop of main.py lines 106-145: from the raw
detector output, the rects list for the tracker and the per-frame class
counter. -/
def buildRects (conf : ℚ) (targets : List String)
    (dets : List RawDetection) : List Rect × ClassCounter :=
  dets.foldl (buildStep conf targets) ([], fun _ => none)

/-- The cumulative named counters (main.py line 60): a dictionary from
counter name to the set of object ids accumulated for it, kept as an
association list in insertion order. -/
abbrev Counters := List (String × Finset ℕ)

/-- The set held by a named counter; an absent name holds the empty set. -/
def counterSet (cs : Counters) (name : String) : Finset ℕ :=
  (cs.lookup name).getD ∅

/-- Adding an object id to a named counter set: the existing entry gains
the id, a missing entry is created with the singleton. -/
def updateCounter : Counters → String → ℕ → Counters
  | [], n, i => [(n, {i})]
  | (k, s) :: rest, n, i =>
      if k = n then (k, insert i s) :: rest else (k, s) :: updateCounter rest n i

/-- Comparison operators of the condition DSL. -/
inductive CmpOp where
  | lt
  | le
  | eq
  | ge
  | gt
  deriving DecidableEq

/-- Evaluation of a comparison operator on integers. -/
def CmpOp.apply : CmpOp → ℤ → ℤ → Bool
  | .lt, a, b => decide (a < b)
  | .le, a, b => decide (a ≤ b)
  | .eq, a, b => decide (a = b)
  | .ge, a, b => decide (b ≤ a)
  | .gt, a, b => decide (b < a)

/-- Modelled from the spec: the tagged-variant condition tree of
targets_conditions_handler (module not under src/) — comparison of a
counter cardinality against a literal threshold, conjunction, disjunction,
negation, literal. -/
inductive ConditionNode where
  | cmp (counterName : String) (op : CmpOp) (threshold : ℤ)
  | conj (l r : ConditionNode)
  | disj (l r : ConditionNode)
  | neg (c : ConditionNode)
  | lit (b : Bool)
  deriving DecidableEq

/-- Modelled from the spec: the pure recursive condition evaluator of
targets_conditions_handler (module not under src/).  Comparisons read
counter cardinalities, a missing counter name evaluates as cardinality
zero, conjunction and disjunction short-circuit, negation inverts. -/
def evalCond (cs : Counters) : ConditionNode → Bool
  | .cmp n op t => op.apply ((counterSet cs n).card : ℤ) t
  | .conj l r => evalCond cs l && evalCond cs r
  | .disj l r => evalCond cs l || evalCond cs r
  | .neg c => !(evalCond cs c)
  | .lit b => b

/-- One target definition from the configuration (spec §3): optional
min/max bounds, optional properties/action list, optional counter name. -/
structure TargetDefinition where
  min : Option ℤ
  max : Option ℤ
  properties : Option (List String)
  counter : Option String
  deriving DecidableEq

/-- Modelled from the spec: the immutable structured data produced once per
run by config_file_loader (module not under src/) — target definitions
keyed by class name, the target-condition tree, the activity list and the
activity-condition tree, each of the latter three possibly absent. -/
structure ProgramData where
  targets : List (String × TargetDefinition)
  targets_conditions : Option ConditionNode
  activities : Option (List String)
  activities_conditions : Option ConditionNode

/-- The dictionary access program_data['targets'][name] of main.py lines
154-160.  Rect metadata only ever carries declared target classes, so the
default is unreachable there (in Python a missing key would raise). -/
def getTarget (pd : ProgramData) (name : String) : TargetDefinition :=
  (pd.targets.lookup name).getD ⟨none, none, none, none⟩

/-- Modelled from the spec: one tracked object of centroidtracker (module
not under src/) — last known centroid, latest associated detection
metadata (the rect), and the count of consecutive frames since the last
match (spec §3, §4.1). -/
structure TrackedObject where
  centroid : ℤ × ℤ
  meta : Rect
  disappeared : ℕ
  deriving DecidableEq

/-- Modelled from the spec: the CentroidTracker state (module not under
src/) — next_object_id, the map object_id → TrackedObject kept in
insertion order, and the configured max_disappeared threshold
(spec §4.1). -/
structure Tracker where
  nextId : ℕ
  objects : List (ℕ × TrackedObject)
  maxDisappeared : ℕ

/-- The live object ids of a tracker, in map order. -/
def Tracker.keys (t : Tracker) : List ℕ :=
  t.objects.map Prod.fst

/-- The derived centroid of a rect: the geometric centre of its bounding
box (spec §3, integer division). -/
def centroidOf (r : Rect) : ℤ × ℤ :=
  ((r.x1 + r.x2) / 2, (r.y1 + r.y2) / 2)

/-- Squared Euclidean distance between centroids.  Square roots are
order-preserving, so squared distances induce the same nearest-neighbour
choices as the Euclidean distances of spec §4.1 step 3. -/
def sqDist (a b : ℤ × ℤ) : ℤ :=
  (a.1 - b.1) ^ 2 + (a.2 - b.2) ^ 2

/-- Minimum squared distance from one row centroid to the detection
columns (spec §4.1 step 4: each row's minimum distance).  The fallback for
an empty column list is never used by the matcher. -/
def rowMinDist (c : ℤ × ℤ) (cols : List (ℕ × ((ℤ × ℤ) × Rect))) : ℤ :=
  match cols with
  | [] => 0
  | x :: xs => xs.foldl (fun m p => min m (sqDist c p.2.1)) (sqDist c x.2.1)

/-- Insertion into a key-sorted list, keeping ascending keys. -/
def insertByKey {α : Type} (x : ℤ × α) : List (ℤ × α) → List (ℤ × α)
  | [] => [x]
  | y :: ys => if x.1 < y.1 then x :: y :: ys else y :: insertByKey x ys

/-- Insertion sort by key: the deterministic ascending ordering of rows by
their minimum distance (spec §4.1 step 4). -/
def sortByKey {α : Type} : List (ℤ × α) → List (ℤ × α)
  | [] => []
  | x :: xs => insertByKey x (sortByKey xs)

/-- The nearest detection column to a row centroid among the columns not
already consumed; ties keep the earliest column (spec §4.1 step 4). -/
def nearestFree (c : ℤ × ℤ) (cols : List (ℕ × ((ℤ × ℤ) × Rect)))
    (used : List ℕ) : Option (ℕ × ((ℤ × ℤ) × Rect)) :=
  (cols.filter (fun p => !(used.contains p.1))).foldl
    (fun best p =>
      match best with
      | none => some p
      | some q => if sqDist c p.2.1 < sqDist c q.2.1 then some p else some q)
    none

/-- Modelled from the spec: the greedy assignment of centroidtracker
(module not under src/, spec §4.1 step 4) — rows ordered by their minimum
distance ascending, each row taking its nearest not-yet-consumed column;
a row finding no free column stays unmatched.  Returns (object id,
column index) pairs. -/
def greedyMatch (rows : List (ℕ × TrackedObject))
    (cols : List (ℕ × ((ℤ × ℤ) × Rect))) : List (ℕ × ℕ) :=
  let sorted := sortByKey (rows.map (fun r => (rowMinDist r.2.centroid cols, r)))
  (sorted.foldl
    (fun (acc : List (ℕ × ℕ) × List ℕ) kr =>
      match nearestFree kr.2.2.centroid cols acc.2 with
      | none => acc
      | some p => (acc.1 ++ [(kr.2.1, p.1)], p.1 :: acc.2))
    ([], [])).1

/-- A freshly registered tracked object: the detection's centroid and
metadata, disappeared count zero (spec §4.1 steps 2 and 6). -/
def mkTracked (p : (ℤ × ℤ) × Rect) : TrackedObject :=
  ⟨p.1, p.2, 0⟩

/-- Registration of a run of detections with sequential fresh ids starting
at the given next_object_id (spec §4.1 steps 2 and 6). -/
def registerList (nid : ℕ) : List ((ℤ × ℤ) × Rect) → List (ℕ × TrackedObject)
  | [] => []
  | p :: ps => (nid, mkTracked p) :: registerList (nid + 1) ps

/-- The ageing of one unmatched object: increment disappeared, remove the
object once the count exceeds max_disappeared (spec §4.1 step 5). -/
def ageObject (maxD : ℕ) (ob : ℕ × TrackedObject) : Option (ℕ × TrackedObject) :=
  if ob.2.disappeared + 1 > maxD then none
  else some (ob.1, { ob.2 with disappeared := ob.2.disappeared + 1 })

/-- The fate of one existing tracked object under the computed greedy
assignment (spec §4.1 step 5): a matched object takes its column's centroid
and metadata with disappeared reset to zero; an unmatched object ages.
The inner none case is unreachable (matched column indices come from the
column list). -/
def surviveStep (maxD : ℕ) (ms : List (ℕ × ℕ))
    (cols : List (ℕ × ((ℤ × ℤ) × Rect))) (ob : ℕ × TrackedObject) :
    Option (ℕ × TrackedObject) :=
  match ms.lookup ob.1 with
  | some j =>
      match cols.lookup j with
      | some p => some (ob.1, ⟨p.1, p.2, 0⟩)
      | none => some (ob.1, ob.2)
  | none => ageObject maxD ob

/-- Modelled from the spec: CentroidTracker.update (module not under src/,
spec §4.1).  With no tracked objects every detection is registered fresh;
with no detections every object ages by one tick; otherwise the greedy
assignment updates matched objects in place (centroid and metadata
refreshed, disappeared reset to zero), ages unmatched objects, and
registers unmatched detections with sequential fresh ids. -/
def Tracker.update (t : Tracker) (rects : List Rect) : Tracker :=
  let cols := (rects.map (fun r => (centroidOf r, r))).enum
  if t.objects.isEmpty then
    { t with objects := registerList t.nextId (cols.map Prod.snd),
             nextId := t.nextId + (cols.map Prod.snd).length }
  else if cols.isEmpty then
    { t with objects := t.objects.filterMap (ageObject t.maxDisappeared) }
  else
    let ms := greedyMatch t.objects cols
    let survivors := t.objects.filterMap (surviveStep t.maxDisappeared ms cols)
    let matchedCols := ms.map Prod.snd
    let unmatched := (cols.filter (fun p => !(matchedCols.contains p.1))).map Prod.snd
    { t with objects := survivors ++ registerList t.nextId unmatched,
             nextId := t.nextId + unmatched.length }

/-- Tracker well-formedness: live ids are pairwise distinct and all below
next_object_id. -/
def Tracker.Wf (t : Tracker) : Prop :=
  t.keys.Nodup ∧ ∀ id ∈ t.keys, id < t.nextId

/-- The object record dispatched to handle_properties (main.py lines
169-178): bounding box, midline coordinates, colour, label position,
object id, centroid and configured counter name. -/
structure ObjectData where
  bounding_box : ℤ × ℤ × ℤ × ℤ
  middle_line_coords : (ℤ × ℤ) × (ℤ × ℤ)
  colorIdx : ℕ
  labely : ℤ
  object_id : ℕ
  centroid : ℤ × ℤ
  counter_name : Option String
  deriving DecidableEq

/-- The object_data dictionary built in main.py lines 169-178 for one
tracked object. -/
def odOf (tdef : TargetDefinition) (object_id : ℕ) (centroid : ℤ × ℤ)
    (rect : Rect) : ObjectData :=
  { bounding_box := (rect.x1, rect.y1, rect.x2, rect.y2),
    middle_line_coords := (rect.p1, rect.p2),
    colorIdx := rect.colorIdx,
    labely := rect.labely,
    object_id := object_id,
    centroid := centroid,
    counter_name := tdef.counter }

/-- Observation log of one frame's per-object loop: the detected_objects
value read for each processed object (with its id and class), the number
of target-condition evaluations and their results, and the records
dispatched to handle_properties. -/
structure FrameLog where
  countUsed : List (ℕ × String × ℤ)
  condEvals : ℕ
  condResults : List Bool
  dispatched : List ObjectData
  deriving DecidableEq

/-- The empty frame log. -/
def emptyLog : FrameLog :=
  ⟨[], 0, [], []⟩

/-- The mutable state threaded through the per-object loop of main.py
lines 151-198: the per-frame class counter, the cumulative counters and
the observation log. -/
structure LoopState where
  class_counter : ClassCounter
  counters : Counters
  log : FrameLog

/-- check_targets_conditions (main.py lines 46-49): when a target-condition
tree is configured, hand it with the counters to the handler.  The handler
(targets_conditions_handler, module not under src/) is modelled from the
spec as the side-effect-free evaluation of the tree over the counters; the
log records the evaluation and its result. -/
def check_targets_conditions (tc : Option ConditionNode) (st : LoopState) :
    LoopState :=
  match tc with
  | none => st
  | some tree =>
      { st with log :=
          { st.log with condEvals := st.log.condEvals + 1,
                        condResults := st.log.condResults ++ [evalCond st.counters tree] } }

/-- Modelled from the spec: handle_properties (module not under src/) —
the eligible object's record is dispatched, and when a counter name is
configured the object's id is added to that named counter set, idempotent
and monotonic (spec §4.3a).  The properties list itself drives only
rendering/actions and leaves the counters untouched. -/
def handle_properties (properties : Option (List String)) (cs : Counters)
    (od : ObjectData) : Counters :=
  match od.counter_name with
  | none => cs
  | some n => updateCounter cs n od.object_id

/-- One call of handle_properties from the loop (main.py lines 183-198):
the counters are updated and the dispatched record is logged. -/
def dispatchStep (properties : Option (List String)) (st : LoopState)
    (od : ObjectData) : LoopState :=
  { st with counters := handle_properties properties st.counters od,
            log := { st.log with dispatched := st.log.dispatched ++ [od] } }

/-- One iteration of the per-object loop of main.py lines 151-198: read
the target's bounds and counter name, skip the object when its class has
no per-frame count, otherwise decrement the class counter, run
check_targets_conditions, and dispatch through the min/max branch
structure of lines 180-198.  The countUsed log records the
detected_objects value read at line 156 — the value the bound check
uses. -/
def processObject (pd : ProgramData) (st : LoopState)
    (entry : ℕ × TrackedObject) : LoopState :=
  let object_id := entry.1
  let ob := entry.2
  let target_name := ob.meta.class_name
  let tdef := getTarget pd target_name
  match st.class_counter target_name with
  | none => st
  | some detected_objects =>
    let st1 : LoopState :=
      { st with
          class_counter := fun s =>
            if s = target_name then some (detected_objects - 1)
            else st.class_counter s,
          log := { st.log with
                     countUsed := st.log.countUsed
                       ++ [(object_id, target_name, detected_objects)] } }
    let st2 := check_targets_conditions pd.targets_conditions st1
    let od := odOf tdef object_id ob.centroid ob.meta
    match tdef.min, tdef.max with
    | some mn, some mx =>
        if mn ≤ detected_objects ∧ detected_objects ≤ mx then
          dispatchStep tdef.properties st2 od
        else st2
    | some mn, none =>
        if detected_objects ≥ mn then dispatchStep tdef.properties st2 od
        else st2
    | none, some mx =>
        if detected_objects ≤ mx then dispatchStep tdef.properties st2 od
        else st2
    | none, none => dispatchStep tdef.properties st2 od

/-- Eligibility as the specification's table states it (spec §4.3a): with
both bounds min ≤ count ≤ max, with only min count ≥ min, with only max
count ≤ max, with neither always eligible.  Written from the spec's words,
to be compared with the branch structure of main.py lines 180-198. -/
def specEligible (minimum maximum : Option ℤ) (count : ℤ) : Bool :=
  match minimum, maximum with
  | some mn, some mx => decide (mn ≤ count ∧ count ≤ mx)
  | some mn, none => decide (count ≥ mn)
  | none, some mx => decide (count ≤ mx)
  | none, none => true

/-- Modelled from the spec: handle_activity (modules activity_handler and
activity detection context not under src/) — the detected activity and the
current frame are handed to the activity-condition evaluation; the
returned pair records that dispatch. -/
def handle_activity (activity : String) (ac : Option ConditionNode)
    (frame : Frame) : String × Frame :=
  (activity, frame)

/-- check_activities (main.py lines 39-43): when activities are configured,
ask the motion detector (get_detected_activity, module not under src/,
abstracted as the function gda) for an activity signal on the reference
pair and the current frame; hand a positive signal to handle_activity,
and do nothing on a negative one.  The result records the handle_activity
invocation, none meaning no invocation. -/
def check_activities (activities : Option (List String))
    (ac : Option ConditionNode)
    (gda : Frame → Frame → Frame → Option String)
    (f1 f2 frame : Frame) : Option (String × Frame) :=
  match activities with
  | none => none
  | some _ =>
    match gda f1 f2 frame with
    | none => none
    | some activity => some (handle_activity activity ac frame)

/-- The cross-frame state of the run: the tracker and the cumulative
counters. -/
structure RunState where
  tracker : Tracker
  counters : Counters

/-- Observations of one loop iteration: the reference pair passed to
check_activities, the activity dispatch, the per-frame class counter as
built by the detection loop, the tracked objects returned by the tracker,
and the per-object loop's log. -/
structure FrameResult where
  refPairUsed : Frame × Frame
  activityEvent : Option (String × Frame)
  class_counter : ClassCounter
  objects : List (ℕ × TrackedObject)
  log : FrameLog

/-- One iteration of the while loop of main.py lines 87-213: read a frame,
run check_activities on the reference pair, build rects and the per-frame
class counter from the detector output, update the tracker, and fold the
per-object loop over the returned objects. -/
def processFrame (pd : ProgramData) (conf : ℚ)
    (detect : Frame → List RawDetection)
    (gda : Frame → Frame → Frame → Option String)
    (f1 f2 : Frame) (st : RunState) (frame : Frame) :
    RunState × FrameResult :=
  let activityEvent :=
    check_activities pd.activities pd.activities_conditions gda f1 f2 frame
  let rc := buildRects conf (pd.targets.map Prod.fst) (detect frame)
  let tracker := st.tracker.update rc.1
  let ls := tracker.objects.foldl (processObject pd)
    ⟨rc.2, st.counters, emptyLog⟩
  (⟨tracker, ls.counters⟩,
   ⟨(f1, f2), activityEvent, rc.2, tracker.objects, ls.log⟩)

/-- The processing loop from the third frame on (main.py lines 87-213):
frame1 and frame2 are the reference pair read before the loop (lines
80-84) and are threaded through unchanged, exactly as main.py never
reassigns them. -/
def runFrom (pd : ProgramData) (conf : ℚ)
    (detect : Frame → List RawDetection)
    (gda : Frame → Frame → Frame → Option String)
    (f1 f2 : Frame) (st : RunState) :
    List Frame → RunState × List FrameResult
  | [] => (st, [])
  | f :: fs =>
      let r := processFrame pd conf detect gda f1 f2 st f
      let rest := runFrom pd conf detect gda f1 f2 r.1 fs
      (rest.1, r.2 :: rest.2)

/-- The initial run state: a fresh tracker with next id zero and empty
counters (main.py lines 60 and 78). -/
def initState (maxD : ℕ) : RunState :=
  ⟨⟨0, [], maxD⟩, []⟩

/-- The whole run of main (lines 80-223): the first two frames become the
fixed reference pair, the remaining frames are processed by the loop; a
stream shorter than two frames never reaches the loop. -/
def run (pd : ProgramData) (conf : ℚ)
    (detect : Frame → List RawDetection)
    (gda : Frame → Frame → Frame → Option String)
    (maxD : ℕ) : List Frame → RunState × List FrameResult
  | f1 :: f2 :: rest => runFrom pd conf detect gda f1 f2 (initState maxD) rest
  | _ => (initState maxD, [])

/-- The run summary printed at shutdown (main.py line 223): the full
counter-name → object-id-set mapping of the final state. -/
def runSummary (pd : ProgramData) (conf : ℚ)
    (detect : Frame → List RawDetection)
    (gda : Frame → Frame → Frame → Option String)
    (maxD : ℕ) (frames : List Frame) : Counters :=
  (run pd conf detect gda maxD frames).1.counters

/-- A concrete configuration: three targets with min-only, min-and-max and
max-only bounds, a configured target-condition tree and one activity. -/
def demoPD : ProgramData :=
  { targets := [("person", ⟨some 1, none, none, some "people"⟩),
                ("car", ⟨some 2, some 4, none, some "cars"⟩),
                ("cat", ⟨none, some 3, none, none⟩)],
    targets_conditions := some (.lit true),
    activities := some ["walking"],
    activities_conditions := none }

/-- A person detection (class index 15) with full confidence. -/
def personDetA : RawDetection := ⟨1, 15, 10, 10, 20, 20⟩

/-- A second person detection at a distant location. -/
def personDetB : RawDetection := ⟨1, 15, 100, 100, 120, 130⟩

/-- A dog detection; dog is not a declared target of demoPD. -/
def dogDet : RawDetection := ⟨1, 12, 50, 50, 60, 60⟩

/-- A car detection (class index 7). -/
def carDet : RawDetection := ⟨1, 7, 50, 50, 60, 60⟩

/-- A cat detection (class index 8). -/
def catDet : RawDetection := ⟨1, 8, 30, 30, 36, 36⟩

/-- A detector that reports nothing on any frame. -/
def demoDetect : Frame → List RawDetection := fun _ => []

/-- A detector that reports two persons and one dog on every frame. -/
def demoDetect2 : Frame → List RawDetection :=
  fun _ => [personDetA, personDetB, dogDet]

/-- A motion detector that never signals activity. -/
def demoGda : Frame → Frame → Frame → Option String := fun _ _ _ => none

/-- A motion detector that always signals the walking activity. -/
def demoGda2 : Frame → Frame → Frame → Option String :=
  fun _ _ _ => some "walking"

/-- A concrete tracker with two live person objects and next id 2. -/
def demoTracker : Tracker :=
  ⟨2, [(0, ⟨(15, 15), mkRect personDetA, 0⟩),
       (1, ⟨(110, 115), mkRect personDetB, 0⟩)], 50⟩

/-- A concrete rects list with a single person detection. -/
def demoRects : List Rect := [mkRect personDetA]

/-- A loop state whose class counter holds three cars and nothing else. -/
def demoCarState : LoopState :=
  ⟨fun s => if s = "car" then some 3 else none, [], emptyLog⟩

/-- A tracked car entry with object id 9. -/
def demoCarEntry : ℕ × TrackedObject := (9, ⟨(55, 55), mkRect carDet, 0⟩)

/-- A loop state with an empty class counter. -/
def demoNoneState : LoopState := ⟨fun _ => none, [], emptyLog⟩

/-- A tracked cat entry with object id 4. -/
def demoCatEntry : ℕ × TrackedObject := (4, ⟨(33, 33), mkRect catDet, 0⟩)

/-- A run state whose counters already hold object id 7 for "people". -/
def demoRunState : RunState := ⟨⟨0, [], 50⟩, [("people", {7})]⟩

/-! Helper lemmas: projections of check_targets_conditions and
dispatchStep, and the two shapes of one per-object loop iteration. -/

lemma ctc_counters (tc : Option ConditionNode) (st : LoopState) :
    (check_targets_conditions tc st).counters = st.counters := by
  cases tc <;> rfl

lemma ctc_class_counter (tc : Option ConditionNode) (st : LoopState) :
    (check_targets_conditions tc st).class_counter = st.class_counter := by
  cases tc <;> rfl

lemma ctc_dispatched (tc : Option ConditionNode) (st : LoopState) :
    (check_targets_conditions tc st).log.dispatched = st.log.dispatched := by
  cases tc <;> rfl

lemma ctc_countUsed (tc : Option ConditionNode) (st : LoopState) :
    (check_targets_conditions tc st).log.countUsed = st.log.countUsed := by
  cases tc <;> rfl

lemma ctc_condEvals (tc : Option ConditionNode) (st : LoopState) :
    (check_targets_conditions tc st).log.condEvals
      = st.log.condEvals + (if tc.isSome then 1 else 0) := by
  cases tc <;> simp [check_targets_conditions]

/-- The per-object loop skips an object whose class has no per-frame
count: the state is returned untouched (main.py lines 162-163). -/
lemma processObject_skip (pd : ProgramData) (st : LoopState)
    (e : ℕ × TrackedObject) (h : st.class_counter e.2.meta.class_name = none) :
    processObject pd st e = st := by
  simp only [processObject, h]

lemma processObject_some_class_counter (pd : ProgramData) (st : LoopState)
    (e : ℕ × TrackedObject) (d : ℤ)
    (h : st.class_counter e.2.meta.class_name = some d) :
    (processObject pd st e).class_counter
      = fun s => if s = e.2.meta.class_name then some (d - 1)
                 else st.class_counter s := by
  simp only [processObject, h]
  split <;> (try split) <;> simp_all [dispatchStep, ctc_class_counter]

lemma processObject_some_countUsed (pd : ProgramData) (st : LoopState)
    (e : ℕ × TrackedObject) (d : ℤ)
    (h : st.class_counter e.2.meta.class_name = some d) :
    (processObject pd st e).log.countUsed
      = st.log.countUsed ++ [(e.1, e.2.meta.class_name, d)] := by
  simp only [processObject, h]
  split <;> (try split) <;> simp_all [dispatchStep, ctc_countUsed]

lemma processObject_some_condEvals (pd : ProgramData) (st : LoopState)
    (e : ℕ × TrackedObject) (d : ℤ)
    (h : st.class_counter e.2.meta.class_name = some d) :
    (processObject pd st e).log.condEvals
      = st.log.condEvals + (if pd.targets_conditions.isSome then 1 else 0) := by
  simp only [processObject, h]
  split <;> (try split) <;> simp_all [dispatchStep, ctc_condEvals]

lemma processObject_some_dispatched (pd : ProgramData) (st : LoopState)
    (e : ℕ × TrackedObject) (d : ℤ)
    (h : st.class_counter e.2.meta.class_name = some d) :
    (processObject pd st e).log.dispatched
      = st.log.dispatched ++
        (if specEligible (getTarget pd e.2.meta.class_name).min
            (getTarget pd e.2.meta.class_name).max d
         then [odOf (getTarget pd e.2.meta.class_name) e.1 e.2.centroid e.2.meta]
         else []) := by
  simp only [processObject, h]
  split <;> (try split) <;> simp_all [specEligible, dispatchStep, ctc_dispatched] <;>
    (try (rw [if_neg (by omega)] <;> try simp))

lemma processObject_some_counters (pd : ProgramData) (st : LoopState)
    (e : ℕ × TrackedObject) (d : ℤ)
    (h : st.class_counter e.2.meta.class_name = some d) :
    (processObject pd st e).counters
      = (if specEligible (getTarget pd e.2.meta.class_name).min
            (getTarget pd e.2.meta.class_name).max d
         then handle_properties (getTarget pd e.2.meta.class_name).properties
                st.counters
                (odOf (getTarget pd e.2.meta.class_name) e.1 e.2.centroid e.2.meta)
         else st.counters) := by
  simp only [processObject, h]
  split <;> (try split) <;> simp_all [specEligible, dispatchStep, ctc_counters] <;>
    (try (rw [if_neg (by omega)] <;> try simp))

/-! Helper lemmas: counters only ever grow. -/

lemma counterSet_cons (k : String) (s : Finset ℕ) (rest : Counters) (n : String) :
    counterSet ((k, s) :: rest) n = if n = k then s else counterSet rest n := by
  by_cases hn : n = k
  · simp [counterSet, List.lookup_cons, hn]
  · have hb : (n == k) = false := by simp [hn]
    simp [counterSet, List.lookup_cons, hn, hb]

lemma mem_counterSet_updateCounter (cs : Counters) (nm : String) (i : ℕ)
    (n : String) (a : ℕ) (ha : a ∈ counterSet cs n) :
    a ∈ counterSet (updateCounter cs nm i) n := by
  induction cs with
  | nil => simp [counterSet, List.lookup] at ha
  | cons p rest ih =>
      obtain ⟨k, s⟩ := p
      rw [counterSet_cons] at ha
      by_cases hk : k = nm
      · have hstep : updateCounter ((k, s) :: rest) nm i = (k, insert i s) :: rest := by
          simp [updateCounter, hk]
        rw [hstep, counterSet_cons]
        by_cases hn : n = k
        · rw [if_pos hn] at ha
          rw [if_pos hn]
          exact Finset.mem_insert_of_mem ha
        · rw [if_neg hn] at ha
          rw [if_neg hn]
          exact ha
      · have hstep : updateCounter ((k, s) :: rest) nm i
            = (k, s) :: updateCounter rest nm i := by
          simp [updateCounter, hk]
        rw [hstep, counterSet_cons]
        by_cases hn : n = k
        · rw [if_pos hn] at ha
          rw [if_pos hn]
          exact ha
        · rw [if_neg hn] at ha
          rw [if_neg hn]
          exact ih ha

lemma mem_counterSet_handle_properties (props : Option (List String))
    (od : ObjectData) (cs : Counters) (n : String) (a : ℕ)
    (ha : a ∈ counterSet cs n) :
    a ∈ counterSet (handle_properties props cs od) n := by
  cases hcn : od.counter_name with
  | none => simpa [handle_properties, hcn] using ha
  | some nm =>
      simp only [handle_properties, hcn]
      exact mem_counterSet_updateCounter cs nm od.object_id n a ha

lemma mem_counterSet_processObject (pd : ProgramData) (st : LoopState)
    (e : ℕ × TrackedObject) (n : String) (a : ℕ)
    (ha : a ∈ counterSet st.counters n) :
    a ∈ counterSet (processObject pd st e).counters n := by
  cases hsc : st.class_counter e.2.meta.class_name with
  | none => rw [processObject_skip pd st e hsc]; exact ha
  | some d =>
      rw [processObject_some_counters pd st e d hsc]
      split
      · exact mem_counterSet_handle_properties _ _ _ n a ha
      · exact ha

lemma mem_counterSet_foldl (pd : ProgramData) :
    ∀ (objects : List (ℕ × TrackedObject)) (st : LoopState) (n : String) (a : ℕ),
    a ∈ counterSet st.counters n →
    a ∈ counterSet (objects.foldl (processObject pd) st).counters n := by
  intro objects
  induction objects with
  | nil => intro st n a ha; simpa using ha
  | cons e es ih =>
      intro st n a ha
      rw [List.foldl_cons]
      exact ih _ n a (mem_counterSet_processObject pd st e n a ha)

lemma mem_counterSet_processFrame (pd : ProgramData) (conf : ℚ)
    (detect : Frame → List RawDetection)
    (gda : Frame → Frame → Frame → Option String)
    (f1 f2 : Frame) (st : RunState) (f : Frame) (n : String) (a : ℕ)
    (ha : a ∈ counterSet st.counters n) :
    a ∈ counterSet (processFrame pd conf detect gda f1 f2 st f).1.counters n := by
  simp only [processFrame]
  exact mem_counterSet_foldl pd _ _ n a ha

/-! Helper lemmas: the detection loop as filter and count. -/

lemma buildRects_fst_general (conf : ℚ) (targets : List String) :
    ∀ (dets : List RawDetection) (acc : List Rect × ClassCounter),
    (dets.foldl (buildStep conf targets) acc).1
      = acc.1 ++ (dets.filter (passes conf targets)).map mkRect := by
  intro dets
  induction dets with
  | nil => intro acc; simp
  | cons d ds ih =>
      intro acc
      rw [List.foldl_cons, ih]
      by_cases hp : passes conf targets d <;>
        simp [buildStep, hp, List.filter_cons]

lemma buildRects_snd_general (conf : ℚ) (targets : List String) (c : String) :
    ∀ (dets : List RawDetection) (acc : List Rect × ClassCounter),
    (dets.foldl (buildStep conf targets) acc).2 c
      = (if dets.countP (fun d => passes conf targets d && decide (d.className = c)) = 0
         then acc.2 c
         else some ((acc.2 c).getD 0
            + (dets.countP (fun d => passes conf targets d && decide (d.className = c)) : ℤ))) := by
  intro dets
  induction dets with
  | nil => intro acc; simp
  | cons d ds ih =>
      intro acc
      rw [List.foldl_cons, ih, List.countP_cons]
      by_cases hp : passes conf targets d
      · by_cases hc : d.className = c
        · have hpd : (passes conf targets d && decide (d.className = c)) = true := by
            simp [hp, hc]
          have hstep : (buildStep conf targets acc d).2 c
              = some ((acc.2 c).getD 0 + 1) := by
            simp [buildStep, hp, bumpClassCount, hc]
          rw [hpd, hstep]
          simp only [if_pos rfl]
          by_cases h0 : ds.countP (fun d => passes conf targets d && decide (d.className = c)) = 0
          · simp [h0]
          · rw [if_neg h0, if_neg (by omega)]
            simp only [Option.getD_some]
            push_cast
            ring_nf
        · have hpc : (passes conf targets d && decide (d.className = c)) = false := by
            simp [hc]
          simp only [buildStep, if_pos hp, hpc, if_false, bumpClassCount]
          have : ¬ (c = d.className) := fun hh => hc hh.symm
          simp [this]
      · have hpc : (passes conf targets d && decide (d.className = c)) = false := by
          simp [hp]
        simp [buildStep, hp, hpc]

/-! Helper lemmas: condition evaluations and count usage across the
per-object loop. -/

lemma foldl_condEvals (pd : ProgramData) :
    ∀ (objects : List (ℕ × TrackedObject)) (st : LoopState),
    (objects.foldl (processObject pd) st).log.condEvals
      = st.log.condEvals
        + (if pd.targets_conditions.isSome
           then objects.countP (fun x => (st.class_counter x.2.meta.class_name).isSome)
           else 0) := by
  intro objects
  induction objects with
  | nil => intro st; simp
  | cons e es ih =>
      intro st
      rw [List.foldl_cons, ih]
      cases hsc : st.class_counter e.2.meta.class_name with
      | none =>
          rw [processObject_skip pd st e hsc, List.countP_cons]
          simp [hsc]
      | some d =>
          rw [processObject_some_condEvals pd st e d hsc]
          have hcnt : es.countP
              (fun x => ((processObject pd st e).class_counter x.2.meta.class_name).isSome)
              = es.countP (fun x => (st.class_counter x.2.meta.class_name).isSome) := by
            refine List.countP_congr ?_
            intro x _
            rw [processObject_some_class_counter pd st e d hsc]
            by_cases hx : x.2.meta.class_name = e.2.meta.class_name
            · simp [hx, hsc]
            · simp [hx]
          rw [hcnt, List.countP_cons]
          cases pd.targets_conditions <;> simp [hsc] <;> omega

lemma foldl_countUsed (pd : ProgramData) (c : String) :
    ∀ (objects : List (ℕ × TrackedObject)) (st : LoopState) (n : ℤ),
    st.class_counter c = some n →
    (((objects.foldl (processObject pd) st).log.countUsed.filter
        (fun x => decide (x.2.1 = c))).map (fun x => x.2.2))
      = ((st.log.countUsed.filter (fun x => decide (x.2.1 = c))).map (fun x => x.2.2))
        ++ (List.range (objects.countP (fun x => decide (x.2.meta.class_name = c)))).map
            (fun i : ℕ => n - (i : ℤ)) := by
  intro objects
  induction objects with
  | nil => intro st n h; simp
  | cons e es ih =>
      intro st n h
      rw [List.foldl_cons]
      by_cases hc : e.2.meta.class_name = c
      · have hcc : st.class_counter e.2.meta.class_name = some n := by
          rw [hc]; exact h
        have h' : (processObject pd st e).class_counter c = some (n - 1) := by
          rw [processObject_some_class_counter pd st e n hcc]
          simp [hc]
        rw [ih _ _ h', processObject_some_countUsed pd st e n hcc,
          List.filter_append, List.map_append, List.countP_cons]
        have hrange : (List.range
              (es.countP (fun x => decide (x.2.meta.class_name = c)) + 1)).map
              (fun i : ℕ => n - (i : ℤ))
            = n :: (List.range
              (es.countP (fun x => decide (x.2.meta.class_name = c)))).map
              (fun i : ℕ => n - 1 - (i : ℤ)) := by
          rw [List.range_succ_eq_map, List.map_cons, List.map_map]
          congr 1
          · simp
          · refine List.map_congr_left ?_
            intro i _
            simp only [Function.comp_apply]
            push_cast
            ring
        rw [show es.countP (fun x => decide (x.2.meta.class_name = c))
              + (if (decide (e.2.meta.class_name = c)) = true then 1 else 0)
            = es.countP (fun x => decide (x.2.meta.class_name = c)) + 1 from by
          simp [hc]]
        rw [hrange]
        simp [hc]
      · cases hsc : st.class_counter e.2.meta.class_name with
        | none =>
            rw [processObject_skip pd st e hsc, ih _ _ h, List.countP_cons]
            simp [hc]
        | some d =>
            have h' : (processObject pd st e).class_counter c = some n := by
              rw [processObject_some_class_counter pd st e d hsc]
              have hcs : ¬ (c = e.2.meta.class_name) := fun hh => hc hh.symm
              simp only [if_neg hcs]
              exact h
            rw [ih _ _ h', processObject_some_countUsed pd st e d hsc,
              List.filter_append, List.map_append, List.countP_cons]
            simp [hc]

/-! Helper lemmas: shape of the tracker state after one update. -/

lemma registerList_keys (l : List ((ℤ × ℤ) × Rect)) :
    ∀ nid : ℕ, (registerList nid l).map Prod.fst = List.range' nid l.length := by
  induction l with
  | nil => intro nid; rfl
  | cons p ps ih =>
      intro nid
      simp only [registerList, List.map_cons, List.length_cons]
      rw [List.range'_succ, ih]

lemma ageObject_key (maxD : ℕ) (ob o : ℕ × TrackedObject)
    (h : ageObject maxD ob = some o) : o.1 = ob.1 := by
  simp only [ageObject] at h
  split at h
  · exact absurd h (by simp)
  · injection h with h2
    rw [← h2]

lemma keys_filterMap_sublist (f : ℕ × TrackedObject → Option (ℕ × TrackedObject))
    (hf : ∀ ob o, f ob = some o → o.1 = ob.1) :
    ∀ l : List (ℕ × TrackedObject),
      ((l.filterMap f).map Prod.fst).Sublist (l.map Prod.fst) := by
  intro l
  induction l with
  | nil => simp
  | cons x xs ih =>
      rw [List.filterMap_cons]
      cases hx : f x with
      | none =>
          simp only [List.map_cons]
          exact ih.cons _
      | some o =>
          simp only [List.map_cons]
          rw [hf x o hx]
          exact ih.cons₂ _

lemma surviveStep_key (maxD : ℕ) (ms : List (ℕ × ℕ))
    (cols : List (ℕ × ((ℤ × ℤ) × Rect))) (ob o : ℕ × TrackedObject)
    (h : surviveStep maxD ms cols ob = some o) : o.1 = ob.1 := by
  unfold surviveStep at h
  split at h
  · split at h
    · injection h with h2
      rw [← h2]
    · injection h with h2
      rw [← h2]
  · exact ageObject_key _ ob o h

lemma update_shape (t : Tracker) (rects : List Rect) :
    ∃ sk : List ℕ, ∃ k : ℕ,
      (t.update rects).keys = sk ++ List.range' t.nextId k ∧
      sk.Sublist t.keys ∧
      (t.update rects).nextId = t.nextId + k := by
  simp only [Tracker.update]
  split
  next h1 =>
    refine ⟨[], _, ?_, List.nil_sublist _, rfl⟩
    simp only [Tracker.keys, List.nil_append]
    exact registerList_keys _ t.nextId
  next h1 =>
    split
    next h2 =>
      refine ⟨(t.objects.filterMap (ageObject t.maxDisappeared)).map Prod.fst, 0,
        by simp [Tracker.keys], ?_, by simp⟩
      exact keys_filterMap_sublist _ (fun ob o ho => ageObject_key _ ob o ho) t.objects
    next h2 =>
      have hsub := keys_filterMap_sublist
        (surviveStep t.maxDisappeared
          (greedyMatch t.objects ((rects.map (fun r => (centroidOf r, r))).enum))
          ((rects.map (fun r => (centroidOf r, r))).enum))
        (fun ob o ho => surviveStep_key _ _ _ ob o ho) t.objects
      refine ⟨_, _, ?_, hsub, rfl⟩
      simp only [Tracker.keys, List.map_append]
      rw [registerList_keys]

/-! Helper lemmas: the run loop. -/

lemma runFrom_refPair (pd : ProgramData) (conf : ℚ)
    (detect : Frame → List RawDetection)
    (gda : Frame → Frame → Frame → Option String) (f1 f2 : Frame) :
    ∀ (frames : List Frame) (st : RunState) (fr : FrameResult),
      fr ∈ (runFrom pd conf detect gda f1 f2 st frames).2 →
      fr.refPairUsed = (f1, f2) := by
  intro frames
  induction frames with
  | nil => intro st fr h; simp [runFrom] at h
  | cons f fs ih =>
      intro st fr h
      simp only [runFrom, List.mem_cons] at h
      rcases h with h | h
      · rw [h]; rfl
      · exact ih _ fr h

lemma runFrom_fst_append (pd : ProgramData) (conf : ℚ)
    (detect : Frame → List RawDetection)
    (gda : Frame → Frame → Frame → Option String) (f1 f2 : Frame) :
    ∀ (rest : List Frame) (st : RunState) (flast : Frame),
      (runFrom pd conf detect gda f1 f2 st (rest ++ [flast])).1
        = (processFrame pd conf detect gda f1 f2
            (runFrom pd conf detect gda f1 f2 st rest).1 flast).1 := by
  intro rest
  induction rest with
  | nil => intro st flast; rfl
  | cons f fs ih =>
      intro st flast
      simp only [List.cons_append, runFrom]
      exact ih _ flast

/-! Claim theorems. -/

/-- C1 (counterexample): in a frame with two person detections and two
tracked person objects, the bound check of the first object reads
detected count 2 and that of the second reads 1 — because main.py line
165 decrements the per-frame class counter once per processed object —
so the same per-frame count is not used for every tracked object of the
class. -/
theorem count_not_shared_across_objects :
    (processFrame demoPD 0 demoDetect2 demoGda 0 1 (initState 50) 2).2.log.countUsed
        = [(0, "person", 2), (1, "person", 1)] ∧
    ¬ (∀ x ∈ (processFrame demoPD 0 demoDetect2 demoGda 0 1 (initState 50) 2).2.log.countUsed,
        ∀ y ∈ (processFrame demoPD 0 demoDetect2 demoGda 0 1 (initState 50) 2).2.log.countUsed,
          x.2.1 = y.2.1 → x.2.2 = y.2.2) :=
  ⟨by decide, by decide⟩

/-- C1 (amended): for every frame and class c whose per-frame detected
count is n, the count value used by the bound check of the i-th processed
tracked object of class c is n − i: the frame's detected count minus the
number of previously processed objects of that class, the per-frame
counter being decremented once per processed object; the cumulative
counter cardinality is never consulted. -/
theorem countUsed_decrements_per_object (pd : ProgramData) (conf : ℚ)
    (detect : Frame → List RawDetection)
    (gda : Frame → Frame → Frame → Option String)
    (f1 f2 : Frame) (st : RunState) (f : Frame) (c : String) (n : ℤ)
    (h : (processFrame pd conf detect gda f1 f2 st f).2.class_counter c = some n) :
    (((processFrame pd conf detect gda f1 f2 st f).2.log.countUsed.filter
        (fun x => decide (x.2.1 = c))).map (fun x => x.2.2))
      = (List.range ((processFrame pd conf detect gda f1 f2 st f).2.objects.countP
            (fun x => decide (x.2.meta.class_name = c)))).map
          (fun i : ℕ => n - (i : ℤ)) := by
  simp only [processFrame] at h ⊢
  rw [foldl_countUsed pd c _ _ n h]
  simp [emptyLog]

/-- C1 (amended, witness): the two-person frame instantiates the amended
claim at class person with detected count 2. -/
theorem countUsed_decrements_per_object_witness :
    (processFrame demoPD 0 demoDetect2 demoGda 0 1 (initState 50) 2).2.class_counter "person"
        = some 2 ∧
    (((processFrame demoPD 0 demoDetect2 demoGda 0 1 (initState 50) 2).2.log.countUsed.filter
        (fun x => decide (x.2.1 = "person"))).map (fun x => x.2.2))
      = (List.range ((processFrame demoPD 0 demoDetect2 demoGda 0 1 (initState 50) 2).2.objects.countP
            (fun x => decide (x.2.meta.class_name = "person")))).map
          (fun i : ℕ => (2 : ℤ) - (i : ℤ)) :=
  ⟨by decide, countUsed_decrements_per_object demoPD 0 demoDetect2 demoGda 0 1
      (initState 50) 2 "person" 2 (by decide)⟩

/-- C2 (counterexample): with a target-condition tree configured, a frame
with zero tracked objects evaluates the tree zero times and a frame with
two processed tracked objects evaluates it twice — never exactly once per
frame, because main.py calls check_targets_conditions inside the
per-object loop (line 167). -/
theorem cond_eval_count_not_once_per_frame :
    demoPD.targets_conditions.isSome = true ∧
    (processFrame demoPD 0 demoDetect demoGda 0 1 (initState 50) 2).2.log.condEvals = 0 ∧
    (processFrame demoPD 0 demoDetect2 demoGda 0 1 (initState 50) 2).2.log.condEvals = 2 :=
  ⟨rfl, by decide, by decide⟩

/-- C2 (amended): when a target-condition tree is configured, it is
evaluated once per tracked object whose class has a present per-frame
detected count — hence zero times on a frame with no such objects — and
zero times when no tree is configured. -/
theorem cond_evals_once_per_counted_object (pd : ProgramData) (conf : ℚ)
    (detect : Frame → List RawDetection)
    (gda : Frame → Frame → Frame → Option String)
    (f1 f2 : Frame) (st : RunState) (f : Frame) :
    (processFrame pd conf detect gda f1 f2 st f).2.log.condEvals
      = (if pd.targets_conditions.isSome
         then (processFrame pd conf detect gda f1 f2 st f).2.objects.countP
            (fun x => ((processFrame pd conf detect gda f1 f2 st f).2.class_counter
                x.2.meta.class_name).isSome)
         else 0) := by
  simp only [processFrame]
  rw [foldl_condEvals]
  simp [emptyLog]

/-- C3: given the detected count d actually used for a tracked object of a
target class, the object's record is dispatched through handle_properties
(and the counters updated through it) exactly when the spec's eligibility
table holds: both bounds — min ≤ d ≤ max; only min — d ≥ min; only max —
d ≤ max; neither — always. -/
theorem dispatch_iff_spec_eligible (pd : ProgramData) (st : LoopState)
    (e : ℕ × TrackedObject) (d : ℤ)
    (h : st.class_counter e.2.meta.class_name = some d) :
    (processObject pd st e).log.dispatched
        = st.log.dispatched ++
          (if specEligible (getTarget pd e.2.meta.class_name).min
              (getTarget pd e.2.meta.class_name).max d
           then [odOf (getTarget pd e.2.meta.class_name) e.1 e.2.centroid e.2.meta]
           else []) ∧
    (processObject pd st e).counters
        = (if specEligible (getTarget pd e.2.meta.class_name).min
              (getTarget pd e.2.meta.class_name).max d
           then handle_properties (getTarget pd e.2.meta.class_name).properties
                  st.counters
                  (odOf (getTarget pd e.2.meta.class_name) e.1 e.2.centroid e.2.meta)
           else st.counters) :=
  ⟨processObject_some_dispatched pd st e d h,
   processObject_some_counters pd st e d h⟩

/-- C3 (witness): the spec table at bounds min 2, max 4 holds for counts
2, 3, 4 and fails for 0, 1, 5; a car object with used count 3 is
dispatched. -/
theorem dispatch_iff_spec_eligible_witness :
    (specEligible (some 2) (some 4) 0 = false ∧ specEligible (some 2) (some 4) 1 = false ∧
     specEligible (some 2) (some 4) 2 = true ∧ specEligible (some 2) (some 4) 3 = true ∧
     specEligible (some 2) (some 4) 4 = true ∧ specEligible (some 2) (some 4) 5 = false) ∧
    demoCarState.class_counter demoCarEntry.2.meta.class_name = some 3 ∧
    ((processObject demoPD demoCarState demoCarEntry).log.dispatched
        = demoCarState.log.dispatched ++
          (if specEligible (getTarget demoPD demoCarEntry.2.meta.class_name).min
              (getTarget demoPD demoCarEntry.2.meta.class_name).max 3
           then [odOf (getTarget demoPD demoCarEntry.2.meta.class_name)
                  demoCarEntry.1 demoCarEntry.2.centroid demoCarEntry.2.meta]
           else []) ∧
     (processObject demoPD demoCarState demoCarEntry).counters
        = (if specEligible (getTarget demoPD demoCarEntry.2.meta.class_name).min
              (getTarget demoPD demoCarEntry.2.meta.class_name).max 3
           then handle_properties (getTarget demoPD demoCarEntry.2.meta.class_name).properties
                  demoCarState.counters
                  (odOf (getTarget demoPD demoCarEntry.2.meta.class_name)
                    demoCarEntry.1 demoCarEntry.2.centroid demoCarEntry.2.meta)
           else demoCarState.counters)) :=
  ⟨by decide, by decide,
   dispatch_iff_spec_eligible demoPD demoCarState demoCarEntry 3 (by decide)⟩

/-- C4 (counterexample): over a six-frame run, the reference pair handed
to activity detection is the initial pair — frames 0 and 1, read before
the loop — at every one of the four loop iterations: main.py never
reassigns frame1 and frame2, so the pair is fixed for the run, not
periodically refreshed with more recent frames. -/
theorem ref_pair_fixed_counterexample :
    ((run demoPD 0 demoDetect demoGda 50 [0, 1, 2, 3, 4, 5]).2.map
        FrameResult.refPairUsed)
      = [(0, 1), (0, 1), (0, 1), (0, 1)] := by
  decide

/-- C4 (amended): the reference pair used by activity detection at every
loop iteration is exactly the pair of frames read before the loop; it is
never refreshed. -/
theorem ref_pair_constant (pd : ProgramData) (conf : ℚ)
    (detect : Frame → List RawDetection)
    (gda : Frame → Frame → Frame → Option String) (maxD : ℕ)
    (f1 f2 : Frame) (rest : List Frame) :
    ∀ fr ∈ (run pd conf detect gda maxD (f1 :: f2 :: rest)).2,
      fr.refPairUsed = (f1, f2) := by
  intro fr hfr
  exact runFrom_refPair pd conf detect gda f1 f2 rest (initState maxD) fr hfr

/-- C4 (amended, witness): the first iteration of the six-frame demo run
uses the initial pair. -/
theorem ref_pair_constant_witness :
    ((processFrame demoPD 0 demoDetect demoGda 0 1 (initState 50) 2).2).refPairUsed
      = (0, 1) :=
  ref_pair_constant demoPD 0 demoDetect demoGda 50 0 1 [2, 3, 4, 5]
    (processFrame demoPD 0 demoDetect demoGda 0 1 (initState 50) 2).2
    (List.mem_cons_self _ _)

/-- C5: named counters are monotonic — an id present in a counter before
any run of loop iterations is still present after them; no per-frame
operation ever removes an id from a counter. -/
theorem counter_monotone_over_frames (pd : ProgramData) (conf : ℚ)
    (detect : Frame → List RawDetection)
    (gda : Frame → Frame → Frame → Option String)
    (f1 f2 : Frame) (frames : List Frame) (st : RunState)
    (name : String) (id : ℕ)
    (h : id ∈ counterSet st.counters name) :
    id ∈ counterSet (runFrom pd conf detect gda f1 f2 st frames).1.counters name := by
  induction frames generalizing st with
  | nil => exact h
  | cons f fs ih =>
      simp only [runFrom]
      exact ih _ (mem_counterSet_processFrame pd conf detect gda f1 f2 st f name id h)

/-- C5 (witness): id 7 of counter people survives two further frames. -/
theorem counter_monotone_over_frames_witness :
    7 ∈ counterSet demoRunState.counters "people" ∧
    7 ∈ counterSet
        (runFrom demoPD 0 demoDetect demoGda 0 1 demoRunState [2, 3]).1.counters
        "people" :=
  ⟨by decide, counter_monotone_over_frames demoPD 0 demoDetect demoGda 0 1 [2, 3]
      demoRunState "people" 7 (by decide)⟩

/-- C6: one tracker update preserves well-formedness (live ids pairwise
distinct and below next_object_id), never decreases next_object_id, and
assigns every id not live before the update a value at least the old
next_object_id — hence strictly greater than every id ever live before,
removed ones included; ids are never reassigned. -/
theorem tracker_update_id_invariants (t : Tracker) (rects : List Rect)
    (h : t.Wf) :
    (t.update rects).Wf ∧
    t.nextId ≤ (t.update rects).nextId ∧
    ∀ id ∈ (t.update rects).keys, id ∉ t.keys → t.nextId ≤ id := by
  obtain ⟨sk, k, hkeys, hsub, hnext⟩ := update_shape t rects
  obtain ⟨hnd, hlt⟩ := h
  have hsknd : sk.Nodup := List.Nodup.sublist hsub hnd
  have hskmem : ∀ id ∈ sk, id < t.nextId := fun id hid => hlt id (hsub.subset hid)
  refine ⟨⟨?_, ?_⟩, ?_, ?_⟩
  · rw [hkeys]
    refine List.Nodup.append hsknd (List.nodup_range' _ _) ?_
    intro x hx hx2
    have h1 := hskmem x hx
    have h2 := (List.mem_range'_1.mp hx2).1
    omega
  · intro id hid
    rw [hkeys] at hid
    rw [hnext]
    rcases List.mem_append.mp hid with hh | hh
    · have := hskmem id hh
      omega
    · have := (List.mem_range'_1.mp hh).2
      omega
  · omega
  · intro id hid hnot
    rw [hkeys] at hid
    rcases List.mem_append.mp hid with hh | hh
    · exact absurd (hsub.subset hh) hnot
    · exact (List.mem_range'_1.mp hh).1

/-- C6 (witness): a two-object tracker updated with one nearby detection —
one object matched, one aged — satisfies the id invariants. -/
theorem tracker_update_id_invariants_witness :
    demoTracker.Wf ∧
    ((demoTracker.update demoRects).Wf ∧
     demoTracker.nextId ≤ (demoTracker.update demoRects).nextId ∧
     ∀ id ∈ (demoTracker.update demoRects).keys, id ∉ demoTracker.keys →
       demoTracker.nextId ≤ id) :=
  ⟨⟨by decide, by decide⟩,
   tracker_update_id_invariants demoTracker demoRects ⟨by decide, by decide⟩⟩

/-- C7: the rects handed to the tracker are exactly the detections whose
confidence is strictly above the threshold and whose class label is a
declared target, in order; and the per-frame class counter maps a class to
the number of such passing detections of that class, being absent exactly
when that number is zero — any other detection is silently skipped with no
state change. -/
theorem rects_filter_characterization (conf : ℚ) (targets : List String)
    (dets : List RawDetection) :
    (buildRects conf targets dets).1
        = (dets.filter (passes conf targets)).map mkRect ∧
    ∀ c, (buildRects conf targets dets).2 c
        = (if dets.countP (fun d => passes conf targets d && decide (d.className = c)) = 0
           then none
           else some (dets.countP
              (fun d => passes conf targets d && decide (d.className = c)) : ℤ)) := by
  constructor
  · have hh := buildRects_fst_general conf targets dets ([], fun _ => none)
    simpa [buildRects] using hh
  · intro c
    have hh := buildRects_snd_general conf targets c dets ([], fun _ => none)
    simpa [buildRects] using hh

/-- C8: with activities configured, handle_activity is invoked exactly
when the motion detector returns a non-None activity signal; a negative
signal leaves the frame's activity handling a no-op. -/
theorem activity_handler_iff_signal (activities : Option (List String))
    (ac : Option ConditionNode)
    (gda : Frame → Frame → Frame → Option String) (f1 f2 frame : Frame)
    (h : activities.isSome = true) :
    (check_activities activities ac gda f1 f2 frame).isSome
      = (gda f1 f2 frame).isSome := by
  cases activities with
  | none => simp at h
  | some l =>
      cases hg : gda f1 f2 frame <;>
        simp [check_activities, hg]

/-- C8 (witness): with the always-signalling motion detector, the demo
activities trigger the handler. -/
theorem activity_handler_iff_signal_witness :
    demoPD.activities.isSome = true ∧
    (check_activities demoPD.activities demoPD.activities_conditions
        demoGda2 0 1 2).isSome
      = (demoGda2 0 1 2).isSome :=
  ⟨by decide,
   activity_handler_iff_signal demoPD.activities demoPD.activities_conditions
     demoGda2 0 1 2 (by decide)⟩

/-- C9: the run summary exposed at shutdown is the counter mapping of the
state after the last completed frame, exactly as it stands at the final
frame boundary. -/
theorem run_summary_is_final_counters (pd : ProgramData) (conf : ℚ)
    (detect : Frame → List RawDetection)
    (gda : Frame → Frame → Frame → Option String) (maxD : ℕ)
    (f1 f2 : Frame) (rest : List Frame) (flast : Frame) :
    runSummary pd conf detect gda maxD (f1 :: f2 :: (rest ++ [flast]))
      = (processFrame pd conf detect gda f1 f2
          (runFrom pd conf detect gda f1 f2 (initState maxD) rest).1 flast).1.counters := by
  unfold runSummary run
  rw [runFrom_fst_append]

/-- C10: a tracked object whose class has no per-frame count is skipped
entirely — the loop state is returned untouched: no bound check, no
dispatch, no counter update, no target-condition evaluation. -/
theorem absent_count_skips_object (pd : ProgramData) (st : LoopState)
    (e : ℕ × TrackedObject)
    (h : st.class_counter e.2.meta.class_name = none) :
    processObject pd st e = st :=
  processObject_skip pd st e h

/-- C10 (witness): a cat object with max-only bounds — under which a zero
count would be eligible — is still skipped when the cat count is absent. -/
theorem absent_count_skips_object_witness :
    demoNoneState.class_counter demoCatEntry.2.meta.class_name = none ∧
    (getTarget demoPD demoCatEntry.2.meta.class_name).min = none ∧
    (getTarget demoPD demoCatEntry.2.meta.class_name).max = some 3 ∧
    specEligible none (some 3) 0 = true ∧
    processObject demoPD demoNoneState demoCatEntry = demoNoneState :=
  ⟨by decide, by decide, by decide, by decide,
   absent_count_skips_object demoPD demoNoneState demoCatEntry (by decide)⟩

end CVSys
